import Mathlib

/-!
Shallow embedding of the VFS slot-monitor core (src/monitor.py, src/utils.py,
src/models.py) and proofs about its specification.

Modelling conventions:
* Python floats are modelled as rationals; `datetime.utcnow()` values are
  rationals counting seconds, and `timedelta(minutes=10)` is `600`.
* `random.uniform(-v, v)` is exposed as an explicit parameter `u` with the
  hypothesis `-v ≤ u ∧ u ≤ v`.
* The in-memory set `_known_hashes` is modelled as a `List String` used only
  through membership and insertion, which matches Python set semantics.
* Fallible externals (the persisted cache file, the cache write, the
  screenshot capture) are modelled by explicit outcome parameters.
-/

namespace VFS

/-- Calendar date as carried by a Python `datetime.date`.  Python guarantees
`1 ≤ year ≤ 9999`, `1 ≤ month ≤ 12`, `1 ≤ day ≤ 31`; these bounds are taken as
hypotheses where a proof needs them. -/
structure Date where
  year : Nat
  month : Nat
  day : Nat
  deriving DecidableEq

/-- Time of day as carried by a Python `datetime.time` (hour, minute, second,
microsecond). -/
structure TimeOfDay where
  hour : Nat
  minute : Nat
  second : Nat
  microsecond : Nat
  deriving DecidableEq

/-- A Python `datetime.datetime`: a calendar date together with a time of day.
`models.Slot.date` has this type in the source. -/
structure DateTime where
  date : Date
  time : TimeOfDay
  deriving DecidableEq

/-- The `Slot` pydantic model from src/models.py. -/
structure Slot where
  date : DateTime
  start_time : TimeOfDay
  end_time : Option TimeOfDay := none
  location : String
  service : String
  notes : Option String := none
  deriving DecidableEq

/-- The `MonitorState` pydantic model from src/models.py. -/
structure MonitorState where
  is_running : Bool := false
  last_check_at : Option ℚ := none
  last_error : Option String := none
  checks_count : Nat := 0
  slots_found_total : Nat := 0
  deriving DecidableEq

/-- Decimal digit character, as produced by Python number formatting.  The
fallback arm is never reached for in-range datetime fields. -/
def digitChar : Nat → Char
  | 0 => '0'
  | 1 => '1'
  | 2 => '2'
  | 3 => '3'
  | 4 => '4'
  | 5 => '5'
  | 6 => '6'
  | 7 => '7'
  | 8 => '8'
  | 9 => '9'
  | _ => '0'

/-- Two-digit zero-padded rendering (`%02d`), for `n < 100`. -/
def pad2 (n : Nat) : List Char :=
  [digitChar (n / 10), digitChar (n % 10)]

/-- Four-digit zero-padded rendering (`%04d`), for `n < 10000`. -/
def pad4 (n : Nat) : List Char :=
  [digitChar (n / 1000), digitChar (n / 100 % 10), digitChar (n / 10 % 10), digitChar (n % 10)]

/-- Six-digit zero-padded rendering (`%06d`), for `n < 1000000`. -/
def pad6 (n : Nat) : List Char :=
  [digitChar (n / 100000), digitChar (n / 10000 % 10), digitChar (n / 1000 % 10),
   digitChar (n / 100 % 10), digitChar (n / 10 % 10), digitChar (n % 10)]

/-- Output of Python `date.isoformat()`: `YYYY-MM-DD`. -/
def dateIso (d : Date) : List Char :=
  pad4 d.year ++ ('-' :: (pad2 d.month ++ ('-' :: pad2 d.day)))

/-- Output of Python `time.isoformat()`: `HH:MM:SS`, with `.ffffff` appended
exactly when the microsecond field is nonzero. -/
def timeIso (t : TimeOfDay) : List Char :=
  pad2 t.hour ++ (':' :: (pad2 t.minute ++ (':' :: (pad2 t.second ++
    (if t.microsecond = 0 then [] else '.' :: pad6 t.microsecond)))))

/-- The fingerprint `_slot_hash` from src/monitor.py line 31:
`f"{slot.date.date().isoformat()}|{slot.start_time.isoformat()}|{slot.location}|{slot.service}"`. -/
def slot_hash (s : Slot) : String :=
  String.mk (dateIso s.date.date ++ ('|' :: (timeIso s.start_time ++
    ('|' :: (s.location.data ++ ('|' :: s.service.data))))))

/-- One iteration of the for-loop inside `MonitorService._filter_new_slots`
(src/monitor.py lines 198-207): membership test against the in-memory set,
insertion, and append to the result list. -/
def filterStep (acc : List Slot × List String) (slot : Slot) : List Slot × List String :=
  let h := slot_hash slot
  if h ∈ acc.2 then acc else (acc.1 ++ [slot], h :: acc.2)

/-- `MonitorService._filter_new_slots` (src/monitor.py lines 198-207): folds the
candidate slots in input order through `filterStep`, starting from an empty
result list and the current known-hash set; returns the new slots and the
updated set. -/
def filter_new_slots (known : List String) (slots : List Slot) : List Slot × List String :=
  slots.foldl filterStep ([], known)

/-- Modelled from the spec: "for each candidate in input order, compute
fingerprint; if absent from the in-memory set, add it and include the slot in
the result (preserving relative order); if present, skip" — the single-pass,
order-preserving stable filter, written as direct recursion, to be compared
with the source-shaped `filter_new_slots`. -/
def filterNewSpec (known : List String) : List Slot → List Slot
  | [] => []
  | s :: rest =>
    if slot_hash s ∈ known then filterNewSpec known rest
    else s :: filterNewSpec (slot_hash s :: known) rest

/-- `jitter_delay` from src/utils.py lines 59-69.  `u` is the value that
`random.uniform(-variation_seconds, variation_seconds)` returned; it is only
consulted when `variation_seconds > 0`, exactly as in the source. -/
def jitter_delay (base_seconds variation_seconds : ℚ) (u : ℚ) : ℚ :=
  if variation_seconds ≤ 0 then base_seconds
  else max 1 (base_seconds + u)

/-- Error amplification factor from src/monitor.py line 126:
`min(5, 1 + self._consecutive_errors)`. -/
def error_factor (consecutive_errors : Nat) : Nat :=
  min 5 (1 + consecutive_errors)

/-- The delay actually used by a cycle, src/monitor.py lines 120-127: the
jittered delay, multiplied by the amplification factor when the consecutive
error count is nonzero (Python truthiness of the counter). -/
def cycle_delay (base variation u : ℚ) (consecutive_errors : Nat) : ℚ :=
  let d := jitter_delay base variation u
  if consecutive_errors ≠ 0 then d * (error_factor consecutive_errors : ℚ) else d

/-- Observable condition of the persisted slot-cache file when
`MonitorService._load_cache` (src/monitor.py lines 59-68) reads it: absent,
present but failing JSON parsing (any exception inside the `try`), or parsed
with a `hashes` list. -/
inductive CacheFile where
  | missing
  | unparsable
  | parsed (hashes : List String)
  deriving DecidableEq

/-- `MonitorService._load_cache`: on a missing file it returns early, on a
parse failure it logs a warning, in both cases leaving the current in-memory
set (empty at construction) untouched; on success it replaces the set. -/
def load_cache (current : List String) : CacheFile → List String
  | .missing => current
  | .unparsable => current
  | .parsed hashes => hashes

/-- Result of `MonitorService._save_cache` (src/monitor.py lines 70-78): the
in-memory set is never modified, and a failing write is swallowed after
logging a warning — the function never raises. -/
structure SaveResult where
  known : List String
  warned : Bool
  deriving DecidableEq

/-- `MonitorService._save_cache`: `writeOk` tells whether the filesystem write
succeeded; either way the in-memory set is returned unchanged and no exception
propagates. -/
def save_cache (known : List String) (writeOk : Bool) : SaveResult :=
  { known := known, warned := !writeOk }

/-- The monitor settings consumed by `_run_loop` (src/config.py validates
`check_interval ≥ 30` and `check_interval_variation ≥ 0`). -/
structure LoopCfg where
  check_interval : ℚ
  check_interval_variation : ℚ
  deriving DecidableEq

/-- One emission through the three callbacks the loop owns: `on_text`,
`on_slots`, `on_captcha`. -/
inductive Notif where
  | text (msg : String)
  | slotBatch (title : String) (slots : List Slot)
  | captchaAlert (msg : String) (path : String)
  deriving DecidableEq

/-- A call on the site session (`VFSBrowser`) made by the loop body. -/
inductive SiteCall where
  | login
  | navigate
  | fetchSlots
  | screenshot
  deriving DecidableEq

/-- Which of the three site calls of a cycle raised (used for `CaptchaDetected`
and for generic exceptions); determines the prefix of calls actually made. -/
inductive RaisePoint where
  | atLogin
  | atNavigate
  | atFetch
  deriving DecidableEq

/-- Site calls performed up to and including the raising one. -/
def RaisePoint.calls : RaisePoint → List SiteCall
  | .atLogin => [.login]
  | .atNavigate => [.login, .navigate]
  | .atFetch => [SiteCall.login, SiteCall.navigate, SiteCall.fetchSlots]

/-- Outcome of the cycle's site interaction, the external input of one
iteration of the `try` block (src/monitor.py lines 136-190):
`authFail` — `browser.login` returned `False`;
`slotsOk` — login, navigation and slot fetch all succeeded;
`captcha` — one of the three calls raised `CaptchaDetected`
(`screenshotOk` tells whether the subsequent `browser.screenshot` succeeded);
`error` — one of the three calls raised an ordinary exception. -/
inductive SiteOutcome where
  | authFail
  | slotsOk (slots : List Slot)
  | captcha (point : RaisePoint) (screenshotOk : Bool)
  | error (point : RaisePoint) (msg : String)
  deriving DecidableEq

/-- External environment of one while-iteration: the clock value `now` used
for every `datetime.utcnow()` read of the iteration, the jitter draw `u`, the
site outcome, whether the cache write of this cycle would fail, whether an
external task set the stop event during the body, and whether a task
cancellation (as performed by `asyncio.wait_for` when a caller of `stop()`
gives up after its 30 s timeout) is delivered at this cycle's sleep. -/
structure CycleEnv where
  now : ℚ
  u : ℚ
  outcome : SiteOutcome
  saveFails : Bool := false
  stopRequested : Bool := false
  cancelled : Bool := false

/-- Full state of the loop task: the observable `MonitorState`, the private
fields of `MonitorService`, whether `browser.close()` has run, and observation
logs of emitted notifications, site calls, sleeps and logged-and-swallowed
warnings. -/
structure LoopState where
  state : MonitorState
  stop_event : Bool
  known_hashes : List String
  captcha_until : Option ℚ
  consecutive_errors : Nat
  browser_closed : Bool
  notifs : List Notif
  site_calls : List SiteCall
  sleeps : List ℚ
  warnings : Nat
  deriving DecidableEq

/-- How one while-iteration ended: `next` — fall through to the next
iteration; `brk` — `break` out of the `while` (so line 196 `browser.close()`
runs); `escape` — an exception escaped the loop body, skipping line 196. -/
inductive CycleExit where
  | next
  | brk
  | escape
  deriving DecidableEq

/-- Login-failure message of src/monitor.py line 145. -/
def loginFailMsg : String := "Не удалось авторизоваться в VFS. Проверьте логин/пароль."

/-- Status text emitted by `stop()` at src/monitor.py line 102. -/
def stoppingMsg : String := "Останавливаю мониторинг..."

/-- Message of the `RuntimeError` that `asyncio` raises when
`stop()` (called from inside the loop task at line 150) reaches
`asyncio.wait_for(self._task, timeout=30)` and the task awaits itself; the
task repr suffix is omitted. -/
def taskSelfAwaitMsg : String := "Task cannot await on itself"

/-- Heading passed to `on_slots` at src/monitor.py line 159. -/
def newSlotsTitle : String := "Найдены новые слоты:"

/-- Captcha alert text of src/monitor.py lines 179-180. -/
def captchaMsg : String :=
  "Обнаружена капча/Cloudflare. Мониторинг приостановлен на 10 минут. Требуется ручное решение в браузере."

/-- Transient-error notification of src/monitor.py lines 187-190, with the
exception text and the current error-streak length interpolated. -/
def errNotifText (msg : String) (streak : Nat) : String :=
  "Ошибка мониторинга: " ++ msg ++ ". Интервал проверок временно увеличен (серия ошибок: " ++
    toString streak ++ ")."

/-- Timestamp-derived screenshot path of src/monitor.py line 171
(`logs/captcha_<utcnow>.png`); the timestamp rendering is abbreviated to the
numerator of the clock value. -/
def screenshotPath (now : ℚ) : String :=
  "logs/captcha_" ++ toString now.num ++ ".png"

/-- Lines 192-194 of src/monitor.py: after the `try` block, break out if the
stop event is set (`stopRequested` models an external `stop()` raising it
during the body), otherwise sleep for the computed delay; a cancellation
delivered during that sleep escapes the loop. -/
def afterTry (s : LoopState) (e : CycleEnv) (delay : ℚ) : LoopState × CycleExit :=
  let s := { s with stop_event := s.stop_event || e.stopRequested }
  if s.stop_event then (s, .brk)
  else
    let s := { s with sleeps := s.sleeps ++ [delay] }
    if e.cancelled then (s, .escape) else (s, .next)

/-- The `try` block of one iteration, src/monitor.py lines 136-194.

For the `authFail` arm, lines 144-151 together with the inlined `stop()`
(lines 98-109): `last_error` is set to the login-failure message, the message
is emitted, then `stop()` sets the stop event and emits its "stopping" text;
its `asyncio.wait_for(self._task, timeout=30)` then awaits the running task
itself, which raises `RuntimeError` before `is_running` is cleared.  That
`RuntimeError` is caught by the generic `except Exception` handler of lines
183-190, which overwrites `last_error`, increments the error streak and emits
a transient-error text; the set stop event then breaks the loop at line 192,
so the `break` of line 151 is never reached. -/
def runCycleBody (s : LoopState) (e : CycleEnv) (delay : ℚ) : LoopState × CycleExit :=
  let s := { s with state := { s.state with
    checks_count := s.state.checks_count + 1,
    last_check_at := some e.now } }
  match e.outcome with
  | .authFail =>
    let s := { s with
      state := { s.state with last_error := some loginFailMsg },
      site_calls := s.site_calls ++ [SiteCall.login],
      notifs := s.notifs ++ [Notif.text loginFailMsg] }
    let s := { s with
      stop_event := true,
      notifs := s.notifs ++ [Notif.text stoppingMsg] }
    let streak := s.consecutive_errors + 1
    let s := { s with
      state := { s.state with last_error := some taskSelfAwaitMsg },
      consecutive_errors := streak,
      notifs := s.notifs ++ [Notif.text (errNotifText taskSelfAwaitMsg streak)] }
    (s, .brk)
  | .slotsOk slots =>
    let s := { s with site_calls := s.site_calls ++ [SiteCall.login, SiteCall.navigate, SiteCall.fetchSlots] }
    let r := filter_new_slots s.known_hashes slots
    let s := { s with known_hashes := r.2 }
    let s :=
      if r.1 = [] then s
      else
        let saved := save_cache s.known_hashes (!e.saveFails)
        { s with
          state := { s.state with
            slots_found_total := s.state.slots_found_total + r.1.length },
          notifs := s.notifs ++ [Notif.slotBatch newSlotsTitle r.1],
          known_hashes := saved.known,
          warnings := s.warnings + (if saved.warned then 1 else 0) }
    let s := { s with
      state := { s.state with last_error := none },
      consecutive_errors := 0 }
    afterTry s e delay
  | .captcha point shotOk =>
    let s := { s with site_calls := s.site_calls ++ point.calls }
    let s := { s with
      site_calls := s.site_calls ++ [SiteCall.screenshot],
      warnings := s.warnings + (if shotOk then 0 else 1) }
    let s := { s with captcha_until := some (e.now + 600) }
    let s := { s with notifs := s.notifs ++ [Notif.captchaAlert captchaMsg (screenshotPath e.now)] }
    afterTry s e delay
  | .error point msg =>
    let s := { s with site_calls := s.site_calls ++ point.calls }
    let streak := s.consecutive_errors + 1
    let s := { s with
      state := { s.state with last_error := some msg },
      consecutive_errors := streak,
      notifs := s.notifs ++ [Notif.text (errNotifText msg streak)] }
    afterTry s e delay

/-- One while-iteration of `_run_loop`, src/monitor.py lines 118-194: compute
the (possibly amplified) delay, then either take the captcha-cooldown branch
(lines 129-134: sleep the minimum of delay and remaining cooldown and
`continue`, re-checking the cooldown at the next iteration head before any
site interaction) or run the `try` body. -/
def runCycle (cfg : LoopCfg) (s : LoopState) (e : CycleEnv) : LoopState × CycleExit :=
  let delay := cycle_delay cfg.check_interval cfg.check_interval_variation e.u s.consecutive_errors
  match s.captcha_until with
  | some untilT =>
    if e.now < untilT then
      let s := { s with
        sleeps := s.sleeps ++ [min delay (untilT - e.now)],
        stop_event := s.stop_event || e.stopRequested }
      if e.cancelled then (s, .escape) else (s, .next)
    else runCycleBody s e delay
  | none => runCycleBody s e delay

/-- The `while not self._stop_event.is_set()` loop of `_run_loop` together
with line 196: on a normal exit of the `while` (head condition false, or a
`break`) `browser.close()` runs; when an iteration ends in `escape` the close
is skipped, because line 196 is not inside a `finally`.  The environment list
scripts the externally visible events of successive iterations; an empty list
truncates the run (the loop itself would keep iterating). -/
def runLoop (cfg : LoopCfg) : LoopState → List CycleEnv → LoopState
  | s, [] => if s.stop_event then { s with browser_closed := true } else s
  | s, e :: rest =>
    if s.stop_event then { s with browser_closed := true }
    else
      match runCycle cfg s e with
      | (s', .next) => runLoop cfg s' rest
      | (s', .brk) => { s' with browser_closed := true }
      | (s', .escape) => s'

/-- State of the loop task right after the initialisation of `_run_loop`
(src/monitor.py lines 111-116) on a service constructed with the given cache
file (`__post_init__` calls `_load_cache` on an empty set). -/
def initLoopState (file : CacheFile) : LoopState :=
  { state := { is_running := true, last_check_at := none, last_error := none,
               checks_count := 0, slots_found_total := 0 },
    stop_event := false,
    known_hashes := load_cache [] file,
    captcha_until := none,
    consecutive_errors := 0,
    browser_closed := false,
    notifs := [],
    site_calls := [],
    sleeps := [],
    warnings := 0 }

/-! ## Pacing policy -/

/-- Shared helper: with a validated base interval the jittered delay is at
least `1`, whatever the draw. -/
theorem one_le_jitter_delay (base variation u : ℚ) (hb : 30 ≤ base) :
    1 ≤ jitter_delay base variation u := by
  unfold jitter_delay
  split
  · linarith
  · exact le_max_left 1 _

/-- Shared helper: `cycle_delay` is the jittered delay times the
amplification factor, for every error count including zero. -/
theorem cycle_delay_eq_mul (base variation u : ℚ) (k : ℕ) :
    cycle_delay base variation u k =
      jitter_delay base variation u * (error_factor k : ℚ) := by
  unfold cycle_delay
  by_cases hk : k = 0
  · subst hk
    simp [error_factor]
  · simp [hk]

/-- C5: for every `base ≥ 30` and `variation ≥ 0`, with zero consecutive
errors: if `variation ≤ 0` the pacing function returns `base` exactly;
otherwise it returns `max 1 (base + u)` where `u` is the uniform draw from
`[-variation, variation]`; in all cases the result is `≥ 1` and lies within
`[base - variation, base + variation]`. -/
theorem jitter_delay_bounds (base variation u : ℚ)
    (hb : 30 ≤ base) (hv : 0 ≤ variation)
    (hu1 : -variation ≤ u) (hu2 : u ≤ variation) :
    (variation ≤ 0 → jitter_delay base variation u = base) ∧
    (0 < variation → jitter_delay base variation u = max 1 (base + u)) ∧
    1 ≤ jitter_delay base variation u ∧
    base - variation ≤ jitter_delay base variation u ∧
    jitter_delay base variation u ≤ base + variation := by
  refine ⟨fun h => by simp [jitter_delay, h],
          fun h => by simp [jitter_delay, not_le.mpr h, le_of_lt h],
          one_le_jitter_delay base variation u hb, ?_, ?_⟩
  · unfold jitter_delay
    split
    · linarith
    · exact le_trans (by linarith) (le_max_right 1 (base + u))
  · unfold jitter_delay
    split
    · linarith
    · exact max_le (by linarith) (by linarith)

/-- Closed witness for `jitter_delay_bounds` at `base = 120`,
`variation = 30`, `u = 7`. -/
theorem jitter_delay_bounds_witness :
    1 ≤ jitter_delay 120 30 7 ∧
    120 - 30 ≤ jitter_delay 120 30 7 ∧
    jitter_delay 120 30 7 ≤ 120 + 30 := by
  have h := jitter_delay_bounds 120 30 7 (by norm_num) (by norm_num)
    (by norm_num) (by norm_num)
  exact ⟨h.2.2.1, h.2.2.2.1, h.2.2.2.2⟩

/-- C6: for fixed base and variation (and a fixed draw), the delay actually
used by a cycle equals the jittered delay multiplied by
`min 5 (1 + consecutive_errors)`; it is capped at five times the jittered
delay, and for every `k ≥ 1` the delay at streak `k` is at least the delay at
streak `k - 1`. -/
theorem cycle_delay_amplification (base variation u : ℚ)
    (hb : 30 ≤ base) :
    (∀ k : ℕ, cycle_delay base variation u k =
      jitter_delay base variation u * ((min 5 (1 + k) : ℕ) : ℚ)) ∧
    (∀ k : ℕ, cycle_delay base variation u k ≤ 5 * jitter_delay base variation u) ∧
    (∀ k : ℕ, 1 ≤ k →
      cycle_delay base variation u (k - 1) ≤ cycle_delay base variation u k) := by
  have hd : (0 : ℚ) ≤ jitter_delay base variation u :=
    le_trans (by norm_num) (one_le_jitter_delay base variation u hb)
  refine ⟨fun k => cycle_delay_eq_mul base variation u k, fun k => ?_, fun k hk => ?_⟩
  · rw [cycle_delay_eq_mul base variation u k, mul_comm]
    have hf : (error_factor k : ℚ) ≤ 5 := by
      have : error_factor k ≤ 5 := min_le_left 5 (1 + k)
      exact_mod_cast this
    exact mul_le_mul_of_nonneg_right hf hd
  · rw [cycle_delay_eq_mul base variation u k, cycle_delay_eq_mul base variation u (k - 1)]
    have hf : error_factor (k - 1) ≤ error_factor k := by
      unfold error_factor
      exact min_le_min (le_refl 5) (by omega)
    exact mul_le_mul_of_nonneg_left (by exact_mod_cast hf) hd

/-- Closed witness for `cycle_delay_amplification` at `base = 120`,
`variation = 30`, `u = 0`, streaks `2` and `3`. -/
theorem cycle_delay_amplification_witness :
    cycle_delay 120 30 0 3 = jitter_delay 120 30 0 * 4 ∧
    cycle_delay 120 30 0 3 ≤ 5 * jitter_delay 120 30 0 ∧
    cycle_delay 120 30 0 2 ≤ cycle_delay 120 30 0 3 := by
  have h := cycle_delay_amplification 120 30 0 (by norm_num)
  refine ⟨?_, h.2.1 3, ?_⟩
  · have := h.1 3
    norm_num at this
    exact this
  · have := h.2.2 3 (by norm_num)
    norm_num at this
    exact this

/-! ## Deduplicating filter -/

/-- Shared helper: folding `filterStep` from an arbitrary accumulated result
list only prepends that list to the result of folding from the empty one; the
final hash set does not depend on the accumulated results. -/
theorem foldl_filterStep_acc (slots : List Slot) :
    ∀ (acc : List Slot) (k : List String),
      slots.foldl filterStep (acc, k) =
        (acc ++ (slots.foldl filterStep ([], k)).1, (slots.foldl filterStep ([], k)).2) := by
  induction slots with
  | nil => intro acc k; simp
  | cons s rest ih =>
    intro acc k
    by_cases h : slot_hash s ∈ k
    · simp only [List.foldl_cons, filterStep, h, if_pos]
      exact ih acc k
    · simp only [List.foldl_cons, filterStep, h, if_neg, not_false_iff, List.nil_append]
      rw [ih (acc ++ [s]) (slot_hash s :: k), ih [s] (slot_hash s :: k)]
      simp

/-- Shared helper: the source-shaped fold agrees with the spec-shaped
recursive single-pass filter. -/
theorem filter_new_slots_eq_spec (slots : List Slot) :
    ∀ known : List String,
      (filter_new_slots known slots).1 = filterNewSpec known slots := by
  induction slots with
  | nil => intro known; rfl
  | cons s rest ih =>
    intro known
    unfold filter_new_slots filterNewSpec
    by_cases h : slot_hash s ∈ known
    · simp only [List.foldl_cons, filterStep, h, if_pos]
      exact ih known
    · simp only [List.foldl_cons, filterStep, h, if_neg, not_false_iff, List.nil_append]
      rw [foldl_filterStep_acc rest [s] (slot_hash s :: known)]
      simp only [List.singleton_append, List.cons.injEq, true_and]
      exact ih (slot_hash s :: known)

/-- Shared helper: the spec-shaped filter returns a subsequence of its input
(order-preserving selection). -/
theorem filterNewSpec_sublist (slots : List Slot) :
    ∀ known : List String, (filterNewSpec known slots).Sublist slots := by
  induction slots with
  | nil => intro known; simp [filterNewSpec]
  | cons s rest ih =>
    intro known
    unfold filterNewSpec
    split
    · exact (ih known).cons s
    · exact (ih (slot_hash s :: known)).cons₂ s

/-- C2: `_filter_new_slots` is a single-pass, order-preserving stable filter:
it equals the spec-shaped recursive filter that keeps a candidate exactly when
its fingerprint is not yet in the set (adding it at that moment); the kept
slots form a subsequence of the input (relative order preserved); and from an
empty store, `[s₁, s₂, s₁]` with distinct fingerprints yields `[s₁, s₂]`
(in-batch duplicates suppressed, first occurrence kept). -/
theorem filter_new_correct :
    (∀ (known : List String) (slots : List Slot),
      (filter_new_slots known slots).1 = filterNewSpec known slots) ∧
    (∀ (known : List String) (slots : List Slot),
      ((filter_new_slots known slots).1).Sublist slots) ∧
    (∀ s₁ s₂ : Slot, slot_hash s₁ ≠ slot_hash s₂ →
      (filter_new_slots [] [s₁, s₂, s₁]).1 = [s₁, s₂]) := by
  refine ⟨fun known slots => filter_new_slots_eq_spec slots known,
          fun known slots => ?_, fun s₁ s₂ hne => ?_⟩
  · rw [filter_new_slots_eq_spec slots known]
    exact filterNewSpec_sublist slots known
  · rw [filter_new_slots_eq_spec]
    simp [filterNewSpec, hne, Ne.symm hne]

/-- Concrete slots for witnesses: same day, different start times. -/
def wSlotA : Slot :=
  { date := ⟨⟨2026, 3, 15⟩, ⟨0, 0, 0, 0⟩⟩, start_time := ⟨10, 30, 0, 0⟩,
    location := "Moscow", service := "Visa" }

/-- Second concrete slot, differing from `wSlotA` in `start_time`. -/
def wSlotB : Slot :=
  { date := ⟨⟨2026, 3, 15⟩, ⟨0, 0, 0, 0⟩⟩, start_time := ⟨11, 0, 0, 0⟩,
    location := "Moscow", service := "Visa" }

/-- Closed witness for `filter_new_correct`: the dedup-idempotence scenario at
two concrete distinct slots. -/
theorem filter_new_correct_witness :
    (filter_new_slots [] [wSlotA, wSlotB, wSlotA]).1 = [wSlotA, wSlotB] :=
  filter_new_correct.2.2 wSlotA wSlotB (by decide)

/-! ## Loop theorems -/

/-- Shared helper: the post-try epilogue (stop check and sleep) never touches
the observable state, the logs of notifications and site calls, the hash set,
the cooldown or the error streak. -/
theorem afterTry_proj (s : LoopState) (e : CycleEnv) (d : ℚ) :
    (afterTry s e d).1.state = s.state ∧
    (afterTry s e d).1.captcha_until = s.captcha_until ∧
    (afterTry s e d).1.consecutive_errors = s.consecutive_errors ∧
    (afterTry s e d).1.notifs = s.notifs ∧
    (afterTry s e d).1.site_calls = s.site_calls ∧
    (afterTry s e d).1.known_hashes = s.known_hashes ∧
    (afterTry s e d).1.warnings = s.warnings := by
  unfold afterTry
  by_cases h : s.stop_event || e.stopRequested <;> by_cases hc : e.cancelled <;>
    simp [h, hc]

/-- No cooldown window blocks this iteration: either none is set, or the
current time has reached it. -/
def cooldownInactive (s : LoopState) (e : CycleEnv) : Prop :=
  ∀ t, s.captcha_until = some t → ¬ e.now < t

/-- C4: while a cooldown window is set and the current time is before its
expiry, the iteration performs no site interaction at all, leaves the whole
`MonitorState` (hence `checks_count`, `slots_found_total`, `last_check_at`)
untouched, emits nothing, and sleeps for the minimum of the computed delay
and the remaining cooldown, then falls through to the next iteration head —
which re-evaluates the cooldown condition before any site interaction, since
this theorem applies to that iteration as well. -/
theorem cooldown_no_interaction (cfg : LoopCfg) (s : LoopState) (e : CycleEnv) (t : ℚ)
    (hcu : s.captcha_until = some t) (hnow : e.now < t) :
    (runCycle cfg s e).1.state = s.state ∧
    (runCycle cfg s e).1.site_calls = s.site_calls ∧
    (runCycle cfg s e).1.known_hashes = s.known_hashes ∧
    (runCycle cfg s e).1.notifs = s.notifs ∧
    (runCycle cfg s e).1.captcha_until = s.captcha_until ∧
    (runCycle cfg s e).1.sleeps = s.sleeps ++
      [min (cycle_delay cfg.check_interval cfg.check_interval_variation e.u
        s.consecutive_errors) (t - e.now)] ∧
    (e.cancelled = false → (runCycle cfg s e).2 = CycleExit.next) := by
  unfold runCycle
  rw [hcu]
  simp only [hnow, if_pos]
  by_cases hc : e.cancelled <;> simp [hc, hcu]

/-- Cooldown witness state: freshly started loop with a cooldown ending at
time `1000`. -/
def wCooldownState : LoopState :=
  { initLoopState .missing with captcha_until := some 1000 }

/-- Configuration used by concrete runs: the default
`CHECK_INTERVAL = 120`, `CHECK_INTERVAL_VARIATION = 30`. -/
def cfg120 : LoopCfg := ⟨120, 30⟩

/-- Environment of a cycle arriving at time `500`, during the cooldown. -/
def wEnvCooldown : CycleEnv := { now := 500, u := 0, outcome := .slotsOk [] }

/-- Closed witness for `cooldown_no_interaction` at a concrete state and
environment. -/
theorem cooldown_no_interaction_witness :
    (runCycle cfg120 wCooldownState wEnvCooldown).1.site_calls = wCooldownState.site_calls ∧
    (runCycle cfg120 wCooldownState wEnvCooldown).1.state = wCooldownState.state ∧
    (runCycle cfg120 wCooldownState wEnvCooldown).2 = CycleExit.next := by
  have h := cooldown_no_interaction cfg120 wCooldownState wEnvCooldown 1000 rfl (by decide)
  exact ⟨h.2.1, h.1, h.2.2.2.2.2.2 rfl⟩

/-- C3: in a cycle whose site interaction raises `CaptchaDetected` (and no
cooldown blocks the cycle), the monitor attempts the diagnostic screenshot,
logging a warning instead of escalating when the capture fails, sets the
cooldown to 10 minutes (600 s) after the cycle's current time, emits exactly
one captcha-alert carrying the screenshot path, and leaves both
`consecutive_errors` and `last_error` unchanged — all of it irrespective of
whether the capture succeeded.  (The `mkdir` of the already-existing logs
directory, created at startup by `setup_logging`, is modelled as
non-failing.) -/
theorem captcha_cycle (cfg : LoopCfg) (s : LoopState) (e : CycleEnv)
    (point : RaisePoint) (shotOk : Bool)
    (hcool : cooldownInactive s e)
    (hout : e.outcome = .captcha point shotOk) :
    (runCycle cfg s e).1.captcha_until = some (e.now + 600) ∧
    (runCycle cfg s e).1.notifs = s.notifs ++
      [Notif.captchaAlert captchaMsg (screenshotPath e.now)] ∧
    (runCycle cfg s e).1.consecutive_errors = s.consecutive_errors ∧
    (runCycle cfg s e).1.state.last_error = s.state.last_error ∧
    (runCycle cfg s e).1.site_calls = s.site_calls ++ point.calls ++ [SiteCall.screenshot] ∧
    (runCycle cfg s e).1.warnings = s.warnings + (if shotOk then 0 else 1) := by
  have hbody : ∀ d, runCycle cfg s e = runCycleBody s e d →
      (runCycle cfg s e).1.captcha_until = some (e.now + 600) ∧
      (runCycle cfg s e).1.notifs = s.notifs ++
        [Notif.captchaAlert captchaMsg (screenshotPath e.now)] ∧
      (runCycle cfg s e).1.consecutive_errors = s.consecutive_errors ∧
      (runCycle cfg s e).1.state.last_error = s.state.last_error ∧
      (runCycle cfg s e).1.site_calls = s.site_calls ++ point.calls ++ [SiteCall.screenshot] ∧
      (runCycle cfg s e).1.warnings = s.warnings + (if shotOk then 0 else 1) := by
    intro d hd
    rw [hd]
    unfold runCycleBody
    rw [hout]
    simp only []
    obtain ⟨h1, h2, h3, h4, h5, h6, h7⟩ := afterTry_proj
      { s with
        state := { s.state with
          checks_count := s.state.checks_count + 1,
          last_check_at := some e.now },
        site_calls := (s.site_calls ++ point.calls) ++ [SiteCall.screenshot],
        warnings := s.warnings + (if shotOk then 0 else 1),
        captcha_until := some (e.now + 600),
        notifs := s.notifs ++ [Notif.captchaAlert captchaMsg (screenshotPath e.now)] }
      e d
    refine ⟨?_, ?_, ?_, ?_, ?_, ?_⟩
    · rw [h2]
    · rw [h4]
    · rw [h3]
    · rw [h1]
    · rw [h5]
    · rw [h7]
  cases hcu : s.captcha_until with
  | none =>
    refine hbody (cycle_delay cfg.check_interval cfg.check_interval_variation e.u
      s.consecutive_errors) ?_
    unfold runCycle
    rw [hcu]
  | some t =>
    refine hbody (cycle_delay cfg.check_interval cfg.check_interval_variation e.u
      s.consecutive_errors) ?_
    unfold runCycle
    rw [hcu]
    simp only [if_neg (hcool t hcu)]

/-- Shared helper: projection form of `afterTry_proj` for the notification
log. -/
theorem afterTry_notifs (s : LoopState) (e : CycleEnv) (d : ℚ) :
    (afterTry s e d).1.notifs = s.notifs :=
  (afterTry_proj s e d).2.2.2.1

/-- Shared helper: forget the warning counter of a loop state. -/
def eraseWarnings (s : LoopState) : LoopState := { s with warnings := 0 }

/-- Shared helper: the epilogue acts the same on two states that agree on
everything but the warning counter. -/
theorem afterTry_congr (s₁ s₂ : LoopState) (e : CycleEnv) (d : ℚ)
    (h : eraseWarnings s₁ = eraseWarnings s₂) :
    (afterTry s₁ e d).2 = (afterTry s₂ e d).2 ∧
    eraseWarnings (afterTry s₁ e d).1 = eraseWarnings (afterTry s₂ e d).1 := by
  obtain ⟨st₁, se₁, kh₁, cu₁, ce₁, bc₁, nf₁, sc₁, sl₁, w₁⟩ := s₁
  obtain ⟨st₂, se₂, kh₂, cu₂, ce₂, bc₂, nf₂, sc₂, sl₂, w₂⟩ := s₂
  simp only [eraseWarnings, LoopState.mk.injEq, and_true] at h
  obtain ⟨h1, h2, h3, h4, h5, h6, h7, h8, h9⟩ := h
  subst h1; subst h2; subst h3; subst h4; subst h5
  subst h6; subst h7; subst h8; subst h9
  unfold afterTry
  by_cases hs : se₁ || e.stopRequested <;> by_cases hc : e.cancelled <;>
    simp [hs, hc, eraseWarnings]

/-- Shared helper: a cycle body behaves the same whatever the cache-write
outcome, except possibly for the warning counter. -/
theorem runCycleBody_save_indep (s : LoopState) (now u : ℚ) (outcome : SiteOutcome)
    (sr cn b₁ b₂ : Bool) (d : ℚ) :
    (runCycleBody s ⟨now, u, outcome, b₁, sr, cn⟩ d).2 =
      (runCycleBody s ⟨now, u, outcome, b₂, sr, cn⟩ d).2 ∧
    eraseWarnings (runCycleBody s ⟨now, u, outcome, b₁, sr, cn⟩ d).1 =
      eraseWarnings (runCycleBody s ⟨now, u, outcome, b₂, sr, cn⟩ d).1 := by
  cases outcome with
  | authFail => exact ⟨rfl, rfl⟩
  | slotsOk slots =>
    unfold runCycleBody
    simp only []
    by_cases hr : (filter_new_slots s.known_hashes slots).1 = []
    · simp only [hr, if_pos]
      exact afterTry_congr _ _ _ _ rfl
    · simp only [hr, if_neg, not_false_iff]
      exact afterTry_congr _ _ _ _ rfl
  | captcha point shotOk => exact ⟨rfl, rfl⟩
  | error point msg => exact ⟨rfl, rfl⟩

/-- C10: dedup-store persistence is best-effort and never propagates an
error: loading from a missing file leaves the in-memory set empty; loading a
present but unparsable file leaves it empty after a logged warning (loading
is a total function — construction never fails); saving never raises and
never clears the in-memory set; and a failing save changes nothing about the
owning cycle except the count of logged warnings. -/
theorem cache_best_effort :
    load_cache [] .missing = [] ∧
    load_cache [] .unparsable = [] ∧
    (∀ (known : List String) (writeOk : Bool), (save_cache known writeOk).known = known) ∧
    (∀ (cfg : LoopCfg) (s : LoopState) (e : CycleEnv) (b₁ b₂ : Bool),
      (runCycle cfg s { e with saveFails := b₁ }).2 =
        (runCycle cfg s { e with saveFails := b₂ }).2 ∧
      eraseWarnings (runCycle cfg s { e with saveFails := b₁ }).1 =
        eraseWarnings (runCycle cfg s { e with saveFails := b₂ }).1) := by
  refine ⟨rfl, rfl, fun known writeOk => rfl, ?_⟩
  intro cfg s e b₁ b₂
  rcases e with ⟨now, u, outcome, sf, sr, cn⟩
  show (runCycle cfg s ⟨now, u, outcome, b₁, sr, cn⟩).2 =
      (runCycle cfg s ⟨now, u, outcome, b₂, sr, cn⟩).2 ∧
    eraseWarnings (runCycle cfg s ⟨now, u, outcome, b₁, sr, cn⟩).1 =
      eraseWarnings (runCycle cfg s ⟨now, u, outcome, b₂, sr, cn⟩).1
  unfold runCycle
  cases hcu : s.captcha_until with
  | none =>
    exact runCycleBody_save_indep s now u outcome sr cn b₁ b₂ _
  | some t =>
    by_cases hlt : now < t
    · dsimp only
      simp [if_pos hlt]
    · dsimp only
      simp only [if_neg hlt]
      exact runCycleBody_save_indep s now u outcome sr cn b₁ b₂ _

/-- Environment of a first cycle whose login returns `False`. -/
def wEnvAuthFail : CycleEnv := { now := 0, u := 0, outcome := .authFail }

/-- Environment of a quiet follow-up cycle (nothing found, no error). -/
def wEnvIdle : CycleEnv := { now := 200, u := 0, outcome := .slotsOk [] }

/-- Final state of a loop started on an absent cache whose first login
returns `False`, scripted with a second cycle that never runs. -/
def authFailFinal : LoopState :=
  runLoop cfg120 (initLoopState .missing) [wEnvAuthFail, wEnvIdle]

/-- C1 (failing evaluation): when `authenticate` returns `False` on the first
cycle, the loop emits the fatal text, runs no second cycle, and
`checks_count = 1`; but `stop()`, called from inside the loop task at
src/monitor.py line 150, raises at `asyncio.wait_for(self._task, ...)` before
reaching its line 108, so `is_running` stays `true`, `last_error` ends up
overwritten by the `RuntimeError` text, the error streak is incremented, and
the "stopping" and transient-error texts are also emitted. -/
theorem auth_failure_evaluation :
    authFailFinal.state.is_running = true ∧
    authFailFinal.state.checks_count = 1 ∧
    authFailFinal.site_calls = [SiteCall.login] ∧
    authFailFinal.state.last_error = some taskSelfAwaitMsg ∧
    authFailFinal.consecutive_errors = 1 ∧
    authFailFinal.notifs = [Notif.text loginFailMsg, Notif.text stoppingMsg,
      Notif.text (errNotifText taskSelfAwaitMsg 1)] ∧
    authFailFinal.stop_event = true ∧
    authFailFinal.browser_closed = true := by
  decide

/-- C8: outside the fatal-credential path, every iteration emits at most one
notification, and a successful cycle that found nothing new (or a cooldown
iteration) emits none; the fatal cycle, however, emits the fatal text, the
"stopping" status text, and a transient-error text — more than one in the
same cycle. -/
theorem notifications_per_cycle :
    (∀ (cfg : LoopCfg) (s : LoopState) (e : CycleEnv),
      e.outcome ≠ SiteOutcome.authFail →
      (runCycle cfg s e).1.notifs = s.notifs ∨
      ∃ n, (runCycle cfg s e).1.notifs = s.notifs ++ [n]) ∧
    (∀ (cfg : LoopCfg) (s : LoopState) (e : CycleEnv) (slots : List Slot),
      e.outcome = SiteOutcome.slotsOk slots →
      (filter_new_slots s.known_hashes slots).1 = [] →
      cooldownInactive s e →
      (runCycle cfg s e).1.notifs = s.notifs) ∧
    authFailFinal.notifs = [Notif.text loginFailMsg, Notif.text stoppingMsg,
      Notif.text (errNotifText taskSelfAwaitMsg 1)] := by
  have hbody : ∀ (s : LoopState) (e : CycleEnv) (d : ℚ),
      e.outcome ≠ SiteOutcome.authFail →
      (runCycleBody s e d).1.notifs = s.notifs ∨
      ∃ n, (runCycleBody s e d).1.notifs = s.notifs ++ [n] := by
    intro s e d hne
    cases ho : e.outcome with
    | authFail => exact absurd ho hne
    | slotsOk slots =>
      unfold runCycleBody
      rw [ho]
      simp only [afterTry_notifs]
      by_cases hr : (filter_new_slots s.known_hashes slots).1 = []
      · left
        simp [hr]
      · right
        exact ⟨Notif.slotBatch newSlotsTitle (filter_new_slots s.known_hashes slots).1,
          by simp [hr]⟩
    | captcha point shotOk =>
      unfold runCycleBody
      rw [ho]
      simp only [afterTry_notifs]
      exact Or.inr ⟨Notif.captchaAlert captchaMsg (screenshotPath e.now), rfl⟩
    | error point msg =>
      unfold runCycleBody
      rw [ho]
      simp only [afterTry_notifs]
      exact Or.inr ⟨Notif.text (errNotifText msg (s.consecutive_errors + 1)), rfl⟩
  have hcycle : ∀ (cfg : LoopCfg) (s : LoopState) (e : CycleEnv),
      e.outcome ≠ SiteOutcome.authFail →
      (runCycle cfg s e).1.notifs = s.notifs ∨
      ∃ n, (runCycle cfg s e).1.notifs = s.notifs ++ [n] := by
    intro cfg s e hne
    unfold runCycle
    cases hcu : s.captcha_until with
    | none => exact hbody s e _ hne
    | some t =>
      by_cases hlt : e.now < t
      · left
        simp only [hlt, if_pos]
        by_cases hc : e.cancelled <;> simp [hc]
      · simp only [hlt, if_neg, not_false_iff]
        exact hbody s e _ hne
  refine ⟨hcycle, ?_, by decide⟩
  intro cfg s e slots ho hr hcool
  have hbody2 : ∀ d, (runCycleBody s e d).1.notifs = s.notifs := by
    intro d
    unfold runCycleBody
    rw [ho]
    simp only [afterTry_notifs]
    simp [hr]
  unfold runCycle
  cases hcu : s.captcha_until with
  | none => exact hbody2 _
  | some t =>
    simp only [if_neg (hcool t hcu)]
    exact hbody2 _

/-- Closed witness for `notifications_per_cycle`: a quiet successful cycle on
a fresh state emits nothing. -/
theorem notifications_per_cycle_witness :
    (runCycle cfg120 (initLoopState .missing) wEnvIdle).1.notifs =
      (initLoopState .missing).notifs :=
  notifications_per_cycle.2.1 cfg120 (initLoopState .missing) wEnvIdle [] rfl (by decide)
    (by intro t ht; simp [initLoopState] at ht)

/-- Environment of a successful quiet cycle whose trailing sleep receives the
cancellation that `asyncio.wait_for` performs on the loop task when the
caller of `stop()` gives up after its 30 s timeout. -/
def wEnvCancelled : CycleEnv :=
  { now := 0, u := 0, outcome := .slotsOk [], cancelled := true }

/-- Environment of a cycle during whose body an external `stop()` set the
stop event. -/
def wEnvStopped : CycleEnv :=
  { now := 0, u := 0, outcome := .slotsOk [], stopRequested := true }

/-- C9 (failing evaluation): `browser.close()` at src/monitor.py line 196 is
not inside a `finally`, so a cancellation escaping the loop at a sleep — the
very situation of a timed-out `stop()` — ends the loop task with the browser
never released, while the ordinary stop-signal path does release it. -/
theorem browser_release_evaluation :
    (runLoop cfg120 (initLoopState .missing) [wEnvCancelled, wEnvIdle]).browser_closed = false ∧
    (runLoop cfg120 (initLoopState .missing) [wEnvCancelled, wEnvIdle]).state.checks_count = 1 ∧
    (runLoop cfg120 (initLoopState .missing) [wEnvStopped, wEnvIdle]).browser_closed = true := by
  decide

/-- Environment of a cycle at time `100` in which the slot fetch raises
`CaptchaDetected` and the screenshot capture then fails. -/
def wEnvCaptcha : CycleEnv := { now := 100, u := 0, outcome := .captcha .atFetch false }

/-- Closed witness for `captcha_cycle` at a fresh state and a concrete
captcha environment with a failing capture. -/
theorem captcha_cycle_witness :
    (runCycle cfg120 (initLoopState .missing) wEnvCaptcha).1.captcha_until = some 700 ∧
    (runCycle cfg120 (initLoopState .missing) wEnvCaptcha).1.consecutive_errors = 0 ∧
    (runCycle cfg120 (initLoopState .missing) wEnvCaptcha).1.notifs =
      [Notif.captchaAlert captchaMsg (screenshotPath 100)] := by
  have h := captcha_cycle cfg120 (initLoopState .missing) wEnvCaptcha RaisePoint.atFetch false
    (by intro t ht; simp [initLoopState] at ht) rfl
  refine ⟨?_, ?_, ?_⟩
  · rw [h.1]
    norm_num [wEnvCaptcha]
  · rw [h.2.2.1]
    rfl
  · rw [h.2.1]
    rfl

/-! ## Fingerprint characterisation -/

/-- Shared helper: `digitChar` is injective on decimal digits. -/
theorem digitChar_inj : ∀ a, a < 10 → ∀ b, b < 10 → digitChar a = digitChar b → a = b := by
  decide

/-- Shared helper: the fingerprint separator is never a digit character. -/
theorem sep_ne_digitChar (a : Nat) : '|' ≠ digitChar a := by
  unfold digitChar
  split <;> decide

/-- Shared helper: the separator does not occur in `pad2` output. -/
theorem sep_not_mem_pad2 (n : Nat) : '|' ∉ pad2 n := by
  intro h
  rcases List.mem_cons.mp h with h | h
  · exact sep_ne_digitChar _ h
  rcases List.mem_cons.mp h with h | h
  · exact sep_ne_digitChar _ h
  · exact List.not_mem_nil _ h

/-- Shared helper: the separator does not occur in `pad4` output. -/
theorem sep_not_mem_pad4 (n : Nat) : '|' ∉ pad4 n := by
  intro h
  simp only [pad4, List.mem_cons, List.not_mem_nil, or_false] at h
  rcases h with h | h | h | h <;> exact sep_ne_digitChar _ h

/-- Shared helper: the separator does not occur in `pad6` output. -/
theorem sep_not_mem_pad6 (n : Nat) : '|' ∉ pad6 n := by
  intro h
  simp only [pad6, List.mem_cons, List.not_mem_nil, or_false] at h
  rcases h with h | h | h | h | h | h <;> exact sep_ne_digitChar _ h

/-- Shared helper: the separator does not occur in a rendered date. -/
theorem sep_not_mem_dateIso (d : Date) : '|' ∉ dateIso d := by
  intro h
  unfold dateIso at h
  rcases List.mem_append.mp h with h | h
  · exact sep_not_mem_pad4 _ h
  rcases List.mem_cons.mp h with h | h
  · exact absurd h (by decide)
  rcases List.mem_append.mp h with h | h
  · exact sep_not_mem_pad2 _ h
  rcases List.mem_cons.mp h with h | h
  · exact absurd h (by decide)
  · exact sep_not_mem_pad2 _ h

/-- Shared helper: the separator does not occur in a rendered time. -/
theorem sep_not_mem_timeIso (t : TimeOfDay) : '|' ∉ timeIso t := by
  intro h
  unfold timeIso at h
  rcases List.mem_append.mp h with h | h
  · exact sep_not_mem_pad2 _ h
  rcases List.mem_cons.mp h with h | h
  · exact absurd h (by decide)
  rcases List.mem_append.mp h with h | h
  · exact sep_not_mem_pad2 _ h
  rcases List.mem_cons.mp h with h | h
  · exact absurd h (by decide)
  rcases List.mem_append.mp h with h | h
  · exact sep_not_mem_pad2 _ h
  · by_cases c : t.microsecond = 0
    · rw [if_pos c] at h
      exact List.not_mem_nil _ h
    · rw [if_neg c] at h
      rcases List.mem_cons.mp h with h | h
      · exact absurd h (by decide)
      · exact sep_not_mem_pad6 _ h

/-- Shared helper: splitting a concatenation at the first separator is
unambiguous when neither left part contains the separator. -/
theorem append_sep_inj : ∀ {a a' b b' : List Char},
    '|' ∉ a → '|' ∉ a' → a ++ '|' :: b = a' ++ '|' :: b' → a = a' ∧ b = b' := by
  intro a
  induction a with
  | nil =>
    intro a' b b' _ ha' h
    cases a' with
    | nil => simpa using h
    | cons c t =>
      simp only [List.nil_append, List.cons_append, List.cons.injEq] at h
      exact absurd (by rw [h.1]; exact List.mem_cons_self c t) ha'
  | cons x xs ih =>
    intro a' b b' ha ha' h
    cases a' with
    | nil =>
      simp only [List.cons_append, List.nil_append, List.cons.injEq] at h
      exact absurd (by rw [← h.1]; exact List.mem_cons_self x xs) ha
    | cons y ys =>
      simp only [List.cons_append, List.cons.injEq] at h
      obtain ⟨hxy, ht⟩ := h
      have hx : '|' ∉ xs := fun hm => ha (List.mem_cons_of_mem _ hm)
      have hy : '|' ∉ ys := fun hm => ha' (List.mem_cons_of_mem _ hm)
      obtain ⟨h1, h2⟩ := ih hx hy ht
      exact ⟨by rw [hxy, h1], h2⟩

/-- Shared helper: `pad2` is injective below 100. -/
theorem pad2_inj {m n : Nat} (hm : m < 100) (hn : n < 100) (h : pad2 m = pad2 n) : m = n := by
  simp only [pad2, List.cons.injEq, and_true] at h
  obtain ⟨h1, h2⟩ := h
  have e1 := digitChar_inj _ (by omega) _ (by omega) h1
  have e2 := digitChar_inj _ (by omega) _ (by omega) h2
  omega

/-- Shared helper: `pad4` is injective below 10000. -/
theorem pad4_inj {m n : Nat} (hm : m < 10000) (hn : n < 10000) (h : pad4 m = pad4 n) :
    m = n := by
  simp only [pad4, List.cons.injEq, and_true] at h
  obtain ⟨h1, h2, h3, h4⟩ := h
  have e1 := digitChar_inj _ (by omega) _ (by omega) h1
  have e2 := digitChar_inj _ (by omega) _ (by omega) h2
  have e3 := digitChar_inj _ (by omega) _ (by omega) h3
  have e4 := digitChar_inj _ (by omega) _ (by omega) h4
  omega

/-- Shared helper: `pad6` is injective below 1000000. -/
theorem pad6_inj {m n : Nat} (hm : m < 1000000) (hn : n < 1000000) (h : pad6 m = pad6 n) :
    m = n := by
  simp only [pad6, List.cons.injEq, and_true] at h
  obtain ⟨h1, h2, h3, h4, h5, h6⟩ := h
  have e1 := digitChar_inj _ (by omega) _ (by omega) h1
  have e2 := digitChar_inj _ (by omega) _ (by omega) h2
  have e3 := digitChar_inj _ (by omega) _ (by omega) h3
  have e4 := digitChar_inj _ (by omega) _ (by omega) h4
  have e5 := digitChar_inj _ (by omega) _ (by omega) h5
  have e6 := digitChar_inj _ (by omega) _ (by omega) h6
  omega

/-- Shared helper: the date rendering is injective over the Python `date`
range. -/
theorem dateIso_inj {d₁ d₂ : Date}
    (h₁ : d₁.year ≤ 9999 ∧ d₁.month ≤ 12 ∧ d₁.day ≤ 31)
    (h₂ : d₂.year ≤ 9999 ∧ d₂.month ≤ 12 ∧ d₂.day ≤ 31)
    (h : dateIso d₁ = dateIso d₂) : d₁ = d₂ := by
  obtain ⟨y₁, m₁, dd₁⟩ := d₁
  obtain ⟨y₂, m₂, dd₂⟩ := d₂
  unfold dateIso at h
  obtain ⟨hy, hrest⟩ := List.append_inj h rfl
  injection hrest with hd1 hrest
  obtain ⟨hm, hd⟩ := List.append_inj hrest rfl
  injection hd with hd2 hd
  obtain ⟨e1, e2, e3⟩ := h₁
  obtain ⟨f1, f2, f3⟩ := h₂
  have ey := pad4_inj (by omega) (by omega) hy
  have em := pad2_inj (by omega) (by omega) hm
  have ed := pad2_inj (by omega) (by omega) hd
  simp only at ey em ed
  subst ey
  subst em
  subst ed
  rfl

/-- Shared helper: the time rendering is injective over the Python `time`
range. -/
theorem timeIso_inj {t₁ t₂ : TimeOfDay}
    (h₁ : t₁.hour < 24 ∧ t₁.minute < 60 ∧ t₁.second < 60 ∧ t₁.microsecond < 1000000)
    (h₂ : t₂.hour < 24 ∧ t₂.minute < 60 ∧ t₂.second < 60 ∧ t₂.microsecond < 1000000)
    (h : timeIso t₁ = timeIso t₂) : t₁ = t₂ := by
  obtain ⟨hh₁, hm₁, hs₁, hu₁⟩ := h₁
  obtain ⟨hh₂, hm₂, hs₂, hu₂⟩ := h₂
  obtain ⟨a₁, b₁, c₁, u₁⟩ := t₁
  obtain ⟨a₂, b₂, c₂, u₂⟩ := t₂
  simp only at hh₁ hm₁ hs₁ hu₁ hh₂ hm₂ hs₂ hu₂
  unfold timeIso at h
  simp only at h
  obtain ⟨hh, hrest⟩ := List.append_inj h rfl
  injection hrest with hc1 hrest
  obtain ⟨hm, hrest2⟩ := List.append_inj hrest rfl
  injection hrest2 with hc2 hrest2
  obtain ⟨hs, htail⟩ := List.append_inj hrest2 rfl
  have eh := pad2_inj (by omega) (by omega) hh
  have em := pad2_inj (by omega) (by omega) hm
  have es := pad2_inj (by omega) (by omega) hs
  have eu : u₁ = u₂ := by
    by_cases c₁ : u₁ = 0 <;> by_cases c₂ : u₂ = 0
    · omega
    · rw [if_pos c₁, if_neg c₂] at htail
      exact absurd htail (by simp)
    · rw [if_neg c₁, if_pos c₂] at htail
      exact absurd htail (by simp)
    · rw [if_neg c₁, if_neg c₂] at htail
      injection htail with hdot htail
      exact pad6_inj (by omega) (by omega) htail
  simp only at eh em es
  subst eh
  subst em
  subst es
  subst eu
  rfl

/-- Python datetime field invariants for the two fingerprinted components of a
slot: the `datetime.date` ranges for `date` and the `datetime.time` ranges for
`start_time`. -/
def SlotWF (s : Slot) : Prop :=
  (s.date.date.year ≤ 9999 ∧ s.date.date.month ≤ 12 ∧ s.date.date.day ≤ 31) ∧
  (s.start_time.hour < 24 ∧ s.start_time.minute < 60 ∧ s.start_time.second < 60 ∧
    s.start_time.microsecond < 1000000)

/-- Slot whose location contains the separator. -/
def cxPipeLoc : Slot :=
  { date := ⟨⟨2026, 3, 15⟩, ⟨0, 0, 0, 0⟩⟩, start_time := ⟨10, 30, 0, 0⟩,
    location := "A|B", service := "C" }

/-- Slot whose service contains the separator, colliding with `cxPipeLoc`. -/
def cxPipeSvc : Slot :=
  { date := ⟨⟨2026, 3, 15⟩, ⟨0, 0, 0, 0⟩⟩, start_time := ⟨10, 30, 0, 0⟩,
    location := "A", service := "B|C" }

/-- Slot whose `date` carries midnight as its time component. -/
def cxMidnight : Slot :=
  { date := ⟨⟨2026, 3, 15⟩, ⟨0, 0, 0, 0⟩⟩, start_time := ⟨10, 30, 0, 0⟩,
    location := "A", service := "C" }

/-- Slot identical to `cxMidnight` except that `date` carries noon. -/
def cxNoon : Slot :=
  { date := ⟨⟨2026, 3, 15⟩, ⟨12, 0, 0, 0⟩⟩, start_time := ⟨10, 30, 0, 0⟩,
    location := "A", service := "C" }

/-- C7 (counterexample): the fingerprint is not injective over
`(date, start_time, location, service)`: `("A|B", "C")` and `("A", "B|C")`
collide because the free-text fields may contain the separator, and two
slots whose `date` datetimes differ in their time component also collide
because only the calendar date is rendered. -/
theorem slot_hash_not_injective :
    (slot_hash cxPipeLoc = slot_hash cxPipeSvc ∧ cxPipeLoc.location ≠ cxPipeSvc.location) ∧
    (slot_hash cxMidnight = slot_hash cxNoon ∧ cxMidnight.date ≠ cxNoon.date) := by
  decide

/-- C7 (amended): the fingerprint is a pure deterministic formatter that
ignores `notes` and `end_time`; two slots agreeing on calendar date,
start time, location and service always collide; and conversely, for
well-formed datetime fields and locations free of the `|` separator, equal
fingerprints force agreement on the calendar date of `date`, on
`start_time`, on `location` and on `service`. -/
theorem slot_hash_characterisation (s₁ s₂ : Slot)
    (hwf₁ : SlotWF s₁) (hwf₂ : SlotWF s₂)
    (hloc₁ : '|' ∉ s₁.location.data) (hloc₂ : '|' ∉ s₂.location.data) :
    (slot_hash s₁ = slot_hash s₂ ↔
      s₁.date.date = s₂.date.date ∧ s₁.start_time = s₂.start_time ∧
      s₁.location = s₂.location ∧ s₁.service = s₂.service) ∧
    (∀ (n : Option String) (en : Option TimeOfDay),
      slot_hash { s₁ with notes := n, end_time := en } = slot_hash s₁) := by
  constructor
  · constructor
    · intro h
      unfold slot_hash at h
      have hl := congrArg String.data h
      simp only at hl
      obtain ⟨hdate, hrest⟩ :=
        append_sep_inj (sep_not_mem_dateIso _) (sep_not_mem_dateIso _) hl
      obtain ⟨htime, hrest2⟩ :=
        append_sep_inj (sep_not_mem_timeIso _) (sep_not_mem_timeIso _) hrest
      obtain ⟨hloc, hsvc⟩ := append_sep_inj hloc₁ hloc₂ hrest2
      exact ⟨dateIso_inj hwf₁.1 hwf₂.1 hdate, timeIso_inj hwf₁.2 hwf₂.2 htime,
        String.ext hloc, String.ext hsvc⟩
    · rintro ⟨h1, h2, h3, h4⟩
      unfold slot_hash
      rw [h1, h2, h3, h4]
  · intro n en
    rfl

/-- Slot agreeing with `wSlotA` on all fingerprinted fields but carrying
notes and an end time. -/
def wSlotNoted : Slot :=
  { date := ⟨⟨2026, 3, 15⟩, ⟨0, 0, 0, 0⟩⟩, start_time := ⟨10, 30, 0, 0⟩,
    location := "Moscow", service := "Visa", notes := some "second window",
    end_time := some ⟨11, 0, 0, 0⟩ }

/-- Closed witness for `slot_hash_characterisation`: the iff at two concrete
well-formed slots yields their collision from field agreement. -/
theorem slot_hash_characterisation_witness :
    slot_hash wSlotA = slot_hash wSlotNoted :=
  ((slot_hash_characterisation wSlotA wSlotNoted
    (by unfold SlotWF; decide) (by unfold SlotWF; decide)
    (by decide) (by decide)).1).mpr ⟨rfl, rfl, rfl, rfl⟩

end VFS
